import Mathlib

/- Verification of the TwoStageFallbackPolicy escalation engine
   (rasa_core/policies/two_stage_fallback.py).

   The policy file itself is embedded directly from the source.  Its external
   collaborators (the dialogue tracker, the base fallback policy, the score
   vector builder, the reserved intent and action name constants and the
   configuration store mechanics) live outside the provided sources, so they
   are modelled from the specification; each such definition carries a doc
   comment saying so.  Confidence scores and thresholds are embedded as
   rational numbers. -/

set_option maxRecDepth 4000

namespace Rasa

/-- Embeds rasa_core.constants.USER_INTENT_CONFIRM, the reserved intent a user
sends to confirm a suggested intent. -/
def USER_INTENT_CONFIRM : String := "confirm"

/-- Embeds rasa_core.constants.USER_INTENT_DENY, the reserved intent a user
sends to deny a suggested intent. -/
def USER_INTENT_DENY : String := "deny"

/-- Modelled from the spec: FALLBACK_SCORE (rasa_core.constants, not under
src/) is a fixed constant, 1.0 in the reference behavior, used when the core
wants its recommendation honored unconditionally. -/
def FALLBACK_SCORE : ℚ := 1

/-- The universal listen action, named by the string literal action_listen in
predict_action_probabilities. -/
def ACTION_LISTEN_NAME : String := "action_listen"

/-- Modelled from the spec: the reserved ask-confirmation prompt action name
(rasa_core.actions.action.ACTION_DEFAULT_ASK_CONFIRMATION is not under src/);
a distinct reserved action name string. -/
def ACTION_DEFAULT_ASK_CONFIRMATION : String := "action_default_ask_confirmation"

/-- Modelled from the spec: the reserved ask-clarification prompt action name
(rasa_core.actions.action.ACTION_DEFAULT_ASK_CLARIFICATION is not under
src/); a distinct reserved action name string. -/
def ACTION_DEFAULT_ASK_CLARIFICATION : String := "action_default_ask_clarification"

/-- Modelled from the spec: the revert-fallback-escalation instruction action
(rasa_core.actions.action.ACTION_REVERT_FALLBACK_EVENTS is not under src/); a
distinct reserved action name string. -/
def ACTION_REVERT_FALLBACK_EVENTS : String := "action_revert_fallback_events"

/-- Modelled from the spec: the default ultimate fallback action name
(rasa_core.actions.action.ACTION_DEFAULT_FALLBACK_NAME is not under src/); a
distinct reserved action name string, the constructor default for
fallback_action_name. -/
def ACTION_DEFAULT_FALLBACK_NAME : String := "action_default_fallback"

/-- Modelled from the spec: DomainCatalog (rasa_core.domain.Domain is not
under src/) — the set of valid intent names and the set of valid action
names, supplied per call and immutable during the call. -/
structure Domain where
  intents : List String
  action_names : List String

/-- Modelled from the spec: a snapshot of the DialogueStateTracker
(rasa_core.trackers is not under src/).  executed_actions is the most recent
first list of executed system actions, including executions of the listen
action; intent_name and intent_confidence are the intent fields of the parse
data of the latest user message, each absent when the corresponding fact is
not present. -/
structure Tracker where
  executed_actions : List String
  intent_name : Option String
  intent_confidence : Option ℚ

/-- Modelled from the spec: tracker.latest_action_name — the most recently
executed action, whatever it was (it can be the listen action), or none for
an empty history. -/
def Tracker.latest_action_name (t : Tracker) : Option String :=
  t.executed_actions.head?

/-- Modelled from the spec: the bot system actions of the history.  Rule 1 of
the state machine fires on the raw latest executed action, while the
lastSystemActionIs queries of rules 2 to 5 must still see the escalation
prompt as the last system action after the user has replied, so the
executions of the listen action are excluded here. -/
def Tracker.system_actions (t : Tracker) : List String :=
  t.executed_actions.filter (fun a => a != ACTION_LISTEN_NAME)

/-- Modelled from the spec: tracker.last_executed_has(name, skip) — true when
the system action skip positions back from the most recent system action
equals name; a history shorter than the requested depth yields false rather
than an error. -/
def Tracker.last_executed_has (t : Tracker) (name : String) (skip : Nat) : Bool :=
  t.system_actions.get? skip == some name

/-- Errors surfaced by a prediction call: the invalid-domain configuration
error (rasa_core.domain.InvalidDomain) and the defensive internal consistency
error of the score vector builder. -/
inductive PredictError where
  | invalid_domain (message : String)
  | internal_inconsistency (action_name : String)
  deriving DecidableEq

/-- Decidable equality of call results, so that concrete runs of the policy
can be checked by evaluation. -/
instance instDecEqExcept {ε α : Type} [DecidableEq ε] [DecidableEq α] :
    DecidableEq (Except ε α) := fun x y =>
  match x, y with
  | .ok a, .ok b =>
      if h : a = b then .isTrue (by rw [h])
      else .isFalse (fun he => h (Except.ok.inj he))
  | .error e, .error f =>
      if h : e = f then .isTrue (by rw [h])
      else .isFalse (fun he => h (Except.error.inj he))
  | .ok _, .error _ => .isFalse (fun he => Except.noConfusion he)
  | .error _, .ok _ => .isFalse (fun he => Except.noConfusion he)

/-- Modelled from the spec: confidence_scores_for
(rasa_core.policies.policy, not under src/) — a vector over every action of
the domain with the named action set to the given value and all others at
zero; naming an action absent from the domain is a defensive
internal-consistency failure. -/
def confidence_scores_for (action_name : String) (value : ℚ) (d : Domain) :
    Except PredictError (List ℚ) :=
  if action_name ∈ d.action_names then
    .ok (d.action_names.map (fun a => if a = action_name then value else 0))
  else
    .error (.internal_inconsistency action_name)

/-- The default 0.3 threshold of the policy constructor. -/
def default_threshold : ℚ := ⟨3, 10, by decide, by decide⟩

/-- The three configuration fields of TwoStageFallbackPolicy.__init__. -/
structure TwoStageFallbackPolicy where
  nlu_threshold : ℚ
  core_threshold : ℚ
  fallback_action_name : String
  deriving DecidableEq

/-- A policy built with the constructor defaults of __init__:
nlu_threshold 0.3, core_threshold 0.3 and the default fallback action. -/
def default_two_stage_policy : TwoStageFallbackPolicy :=
  ⟨default_threshold, default_threshold, ACTION_DEFAULT_FALLBACK_NAME⟩

/-- Modelled from the spec: FallbackPolicy.should_fallback
(rasa_core.policies.fallback, not under src/) — true when the confidence is
below nlu_threshold, subject to the suppression rule that the policy never
flags its own fallback action as a fresh trigger. -/
def TwoStageFallbackPolicy.should_fallback (p : TwoStageFallbackPolicy)
    (nlu_confidence : ℚ) (last_action_name : Option String) : Bool :=
  decide (nlu_confidence < p.nlu_threshold) &&
    !(last_action_name == some p.fallback_action_name)

/-- Modelled from the spec: FallbackPolicy.fallback_scores
(rasa_core.policies.fallback, not under src/) — the baseline score vector of
rule 7: a graded recommendation of the configured fallback action at the
given score, zero elsewhere, total over any domain. -/
def TwoStageFallbackPolicy.fallback_scores (p : TwoStageFallbackPolicy)
    (d : Domain) (score : ℚ) : List ℚ :=
  d.action_names.map (fun a => if a = p.fallback_action_name then score else 0)

/-- Embeds has_user_confirmed of two_stage_fallback.py. -/
def has_user_confirmed (last_intent : Option String) (t : Tracker) : Bool :=
  t.last_executed_has ACTION_DEFAULT_ASK_CONFIRMATION 0 &&
    (last_intent == some USER_INTENT_CONFIRM)

/-- Embeds _has_user_denied of two_stage_fallback.py. -/
def _has_user_denied (last_intent : Option String) (t : Tracker) : Bool :=
  t.last_executed_has ACTION_DEFAULT_ASK_CONFIRMATION 0 &&
    (last_intent == some USER_INTENT_DENY)

/-- Embeds has_user_clarified of two_stage_fallback.py. -/
def has_user_clarified (t : Tracker) : Bool :=
  t.last_executed_has ACTION_DEFAULT_ASK_CLARIFICATION 0

/-- Embeds __is_user_input_expected: the raw latest action name is a member
of the list of the two prompts and the configured fallback action; a missing
latest action is a member of no list. -/
def TwoStageFallbackPolicy.is_user_input_expected
    (p : TwoStageFallbackPolicy) (t : Tracker) : Bool :=
  match t.latest_action_name with
  | none => false
  | some a =>
      a == ACTION_DEFAULT_ASK_CONFIRMATION ||
      a == ACTION_DEFAULT_ASK_CLARIFICATION ||
      a == p.fallback_action_name

/-- Embeds __results_for_user_denied: the ultimate fallback when the system
action one position before the confirmation prompt was the clarification
prompt, the clarification prompt otherwise. -/
def TwoStageFallbackPolicy.results_for_user_denied
    (p : TwoStageFallbackPolicy) (t : Tracker) (d : Domain) :
    Except PredictError (List ℚ) :=
  if t.last_executed_has ACTION_DEFAULT_ASK_CLARIFICATION 1 then
    confidence_scores_for p.fallback_action_name FALLBACK_SCORE d
  else
    confidence_scores_for ACTION_DEFAULT_ASK_CLARIFICATION FALLBACK_SCORE d

/-- The message of the InvalidDomain error raised by
predict_action_probabilities: the format string has two placeholders and the
source passes USER_INTENT_CONFIRM to both of them. -/
def invalid_domain_message : String :=
  "The intents " ++ USER_INTENT_CONFIRM ++ " and " ++ USER_INTENT_CONFIRM ++
    " must be present in the domain file to use this policy."

/-- Embeds predict_action_probabilities of two_stage_fallback.py: the domain
precondition followed by the ordered guard chain of the escalation state
machine, first match wins.  The local python variables nlu_confidence,
last_intent_name, should_fallback and user_clarified of the source are
written out at their use sites. -/
def TwoStageFallbackPolicy.predict_action_probabilities
    (p : TwoStageFallbackPolicy) (tracker : Tracker) (domain : Domain) :
    Except PredictError (List ℚ) :=
  if USER_INTENT_CONFIRM ∉ domain.intents ∨ USER_INTENT_DENY ∉ domain.intents then
    .error (.invalid_domain invalid_domain_message)
  else
    if p.is_user_input_expected tracker then
      confidence_scores_for ACTION_LISTEN_NAME FALLBACK_SCORE domain
    else if _has_user_denied tracker.intent_name tracker then
      p.results_for_user_denied tracker domain
    else if has_user_clarified tracker &&
        p.should_fallback (tracker.intent_confidence.getD 1) tracker.latest_action_name then
      confidence_scores_for ACTION_DEFAULT_ASK_CONFIRMATION FALLBACK_SCORE domain
    else if has_user_confirmed tracker.intent_name tracker || has_user_clarified tracker then
      confidence_scores_for ACTION_REVERT_FALLBACK_EVENTS FALLBACK_SCORE domain
    else if tracker.last_executed_has ACTION_DEFAULT_ASK_CONFIRMATION 0 then
      if !(p.should_fallback (tracker.intent_confidence.getD 1) tracker.latest_action_name) then
        confidence_scores_for ACTION_REVERT_FALLBACK_EVENTS FALLBACK_SCORE domain
      else
        confidence_scores_for p.fallback_action_name FALLBACK_SCORE domain
    else if p.should_fallback (tracker.intent_confidence.getD 1) tracker.latest_action_name then
      confidence_scores_for ACTION_DEFAULT_ASK_CONFIRMATION FALLBACK_SCORE domain
    else
      .ok (p.fallback_scores domain p.core_threshold)

/-- Modelled from the spec: the flat persisted record of persist and load —
the three configuration keys as optional entries (a missing key is simply
absent from the record) together with the list of any keys of the record
beyond the three known ones. -/
structure PersistedMeta where
  nlu_threshold : Option ℚ
  core_threshold : Option ℚ
  fallback_action_name : Option String

/-- Errors of the configuration load path: keyword expansion of a record
entry that matches no constructor parameter fails, as cls(**meta) does. -/
inductive LoadError where
  | unexpected_keyword (key : String)
  deriving DecidableEq

/-- Embeds persist: the record holds exactly the three configuration fields
and nothing else. -/
def TwoStageFallbackPolicy.persist (p : TwoStageFallbackPolicy) :
    PersistedMeta × List String :=
  (⟨some p.nlu_threshold, some p.core_threshold, some p.fallback_action_name⟩, [])

/-- Embeds load: a missing file yields the empty record, so the constructor
runs on defaults; a record entry beyond the three constructor parameters
makes the keyword expansion cls(**meta) fail; a missing entry leaves the
corresponding constructor default in place.  The argument pairs the known
entries of the record with its unknown keys; none stands for a missing
file. -/
def TwoStageFallbackPolicy.load (file : Option (PersistedMeta × List String)) :
    Except LoadError TwoStageFallbackPolicy :=
  match file with
  | none => .ok default_two_stage_policy
  | some (meta, extra_keys) =>
      match extra_keys with
      | [] =>
          .ok ⟨meta.nlu_threshold.getD default_threshold,
               meta.core_threshold.getD default_threshold,
               meta.fallback_action_name.getD ACTION_DEFAULT_FALLBACK_NAME⟩
      | k :: _ => .error (.unexpected_keyword k)

/-- Test fixture: a confidence of 0.1, below the default threshold. -/
def low_conf : ℚ := ⟨1, 10, by decide, by decide⟩

/-- Test fixture: a confidence of 0.9, above the default threshold. -/
def high_conf : ℚ := ⟨9, 10, by decide, by decide⟩

/-- Test fixture: a threshold value of 0.5 distinct from the defaults. -/
def half : ℚ := ⟨1, 2, by decide, by decide⟩

/-- Test fixture: a domain holding both reserved intents and every reserved
action used by the policy. -/
def full_domain : Domain :=
  ⟨[USER_INTENT_CONFIRM, USER_INTENT_DENY],
   [ACTION_LISTEN_NAME, ACTION_DEFAULT_ASK_CONFIRMATION,
    ACTION_DEFAULT_ASK_CLARIFICATION, ACTION_REVERT_FALLBACK_EVENTS,
    ACTION_DEFAULT_FALLBACK_NAME]⟩

/-- Sanity check: the embedding of the 0.3 constructor default literal. -/
theorem default_threshold_eq : default_threshold = 3 / 10 := by
  rw [default_threshold, Rat.mk'_eq_divInt, Rat.divInt_eq_div]
  norm_num

/-- Helper: a guard known false never passes an if-then-else test. -/
theorem ne_true_of_false {b : Bool} (h : b = false) : ¬ b = true := by
  rw [h]
  exact Bool.false_ne_true

/-- Helper: a domain holding both reserved intents passes the precondition. -/
theorem domain_ok {d : Domain} (hc : USER_INTENT_CONFIRM ∈ d.intents)
    (hd : USER_INTENT_DENY ∈ d.intents) :
    ¬ (USER_INTENT_CONFIRM ∉ d.intents ∨ USER_INTENT_DENY ∉ d.intents) :=
  fun hn => hn.elim (fun hnc => hnc hc) (fun hnd => hnd hd)

/-- Helper: a position of the system action history holds one name only. -/
theorem last_executed_has_ne {t : Tracker} {a : String} (b : String) (k : Nat)
    (h : t.last_executed_has a k = true) (hab : a ≠ b) :
    t.last_executed_has b k = false := by
  unfold Tracker.last_executed_has at h ⊢
  rw [eq_of_beq h, beq_eq_false_iff_ne]
  exact fun hcontra => hab (Option.some.inj hcontra)

/-- Helper: two single-action weight vectors over a list differ when the
weighted action occurs in the list and the weight is not zero. -/
theorem map_single_weight_ne {a b : String} (l : List String) (v : ℚ)
    (hv : v ≠ 0) (ha : a ∈ l) (hab : a ≠ b) :
    l.map (fun x => if x = a then v else 0) ≠
      l.map (fun x => if x = b then v else 0) := by
  induction l with
  | nil => exact absurd ha (List.not_mem_nil a)
  | cons hd tl ih =>
      intro hEq
      rw [List.map_cons, List.map_cons] at hEq
      injection hEq with hhd htl
      rcases List.mem_cons.mp ha with hEqa | hmem
      · subst hEqa
        rw [if_pos rfl, if_neg hab] at hhd
        exact hv hhd
      · exact ih hmem htl

/-- Helper: score vectors recommending two different actions differ, in
every domain. -/
theorem confidence_scores_for_ne {a b : String} (d : Domain) (hab : a ≠ b) :
    confidence_scores_for a FALLBACK_SCORE d ≠
      confidence_scores_for b FALLBACK_SCORE d := by
  unfold confidence_scores_for
  by_cases haIn : a ∈ d.action_names <;> by_cases hbIn : b ∈ d.action_names
  · rw [if_pos haIn, if_pos hbIn]
    intro hEq
    exact map_single_weight_ne d.action_names FALLBACK_SCORE (by decide) haIn hab
      (Except.ok.inj hEq)
  · rw [if_pos haIn, if_neg hbIn]
    exact fun hEq => Except.noConfusion hEq
  · rw [if_neg haIn, if_pos hbIn]
    exact fun hEq => Except.noConfusion hEq
  · rw [if_neg haIn, if_neg hbIn]
    intro hEq
    exact hab (PredictError.internal_inconsistency.inj (Except.error.inj hEq))

/-- Helper: the score vector builder never produces the invalid-domain
error. -/
theorem confidence_scores_for_ne_invalid (a : String) (v : ℚ) (d : Domain)
    (msg : String) :
    confidence_scores_for a v d ≠ .error (.invalid_domain msg) := by
  unfold confidence_scores_for
  split
  · exact fun hEq => Except.noConfusion hEq
  · exact fun hEq => PredictError.noConfusion (Except.error.inj hEq)

/-- Helper: the denial branch never produces the invalid-domain error. -/
theorem results_for_user_denied_ne_invalid (p : TwoStageFallbackPolicy)
    (t : Tracker) (d : Domain) (msg : String) :
    p.results_for_user_denied t d ≠ .error (.invalid_domain msg) := by
  unfold TwoStageFallbackPolicy.results_for_user_denied
  split
  · exact confidence_scores_for_ne_invalid _ _ _ _
  · exact confidence_scores_for_ne_invalid _ _ _ _

/-- C1: for every policy configuration and every domain missing the confirm
or the deny intent, predict_action_probabilities fails with the
invalid-domain configuration error, and the result is the same for every
tracker, so no fact of the dialogue history is read on this path. -/
theorem C1_invalid_domain_fails_uniformly
    (p : TwoStageFallbackPolicy) (d : Domain)
    (h : USER_INTENT_CONFIRM ∉ d.intents ∨ USER_INTENT_DENY ∉ d.intents) :
    ∀ t : Tracker,
      p.predict_action_probabilities t d =
        .error (.invalid_domain invalid_domain_message) := by
  intro t
  unfold TwoStageFallbackPolicy.predict_action_probabilities
  rw [if_pos h]

/-- Witness for C1 at a concrete policy, domain lacking deny, and tracker. -/
theorem C1_witness :
    TwoStageFallbackPolicy.predict_action_probabilities default_two_stage_policy
        ⟨[ACTION_LISTEN_NAME], some "greet", some low_conf⟩
        ⟨[USER_INTENT_CONFIRM], []⟩ =
      .error (.invalid_domain invalid_domain_message) :=
  C1_invalid_domain_fails_uniformly default_two_stage_policy
    ⟨[USER_INTENT_CONFIRM], []⟩ (by decide)
    ⟨[ACTION_LISTEN_NAME], some "greet", some low_conf⟩

/-- C9: whenever predict_action_probabilities produces the invalid-domain
error, its message interpolates the confirm intent name into both
placeholders and never names the deny intent. -/
theorem C9_error_message_confirm_twice
    (p : TwoStageFallbackPolicy) (t : Tracker) (d : Domain) (msg : String)
    (h : p.predict_action_probabilities t d = .error (.invalid_domain msg)) :
    msg = "The intents " ++ USER_INTENT_CONFIRM ++ " and " ++
        USER_INTENT_CONFIRM ++
        " must be present in the domain file to use this policy." ∧
      ¬ (USER_INTENT_DENY.toList <:+: msg.toList) := by
  have hmsg : msg = invalid_domain_message := by
    unfold TwoStageFallbackPolicy.predict_action_probabilities at h
    split at h
    · exact (PredictError.invalid_domain.inj (Except.error.inj h)).symm
    · exfalso
      repeat
        first
          | exact confidence_scores_for_ne_invalid _ _ _ _ h
          | exact results_for_user_denied_ne_invalid _ _ _ _ h
          | exact Except.noConfusion h
          | split at h
  subst hmsg
  exact ⟨rfl, by decide⟩

/-- Witness for C9 at a concrete failing call. -/
theorem C9_witness :
    invalid_domain_message = "The intents " ++ USER_INTENT_CONFIRM ++
        " and " ++ USER_INTENT_CONFIRM ++
        " must be present in the domain file to use this policy." ∧
      ¬ (USER_INTENT_DENY.toList <:+: invalid_domain_message.toList) :=
  C9_error_message_confirm_twice default_two_stage_policy ⟨[], none, none⟩
    ⟨[USER_INTENT_DENY], []⟩ invalid_domain_message (by decide)

/-- C7: loading what persist wrote reproduces the three configuration fields
exactly, and loading with no persisted file present yields the constructor
defaults 0.3, 0.3 and the default fallback action name. -/
theorem C7_round_trip (p : TwoStageFallbackPolicy) :
    TwoStageFallbackPolicy.load (some p.persist) = .ok p ∧
      TwoStageFallbackPolicy.load none =
        .ok ⟨default_threshold, default_threshold, ACTION_DEFAULT_FALLBACK_NAME⟩ := by
  constructor
  · rfl
  · rfl

/-- C8 counterexample: a persisted record holding a key beyond the three
configuration fields makes load fail with an unexpected-keyword error
instead of succeeding with defaults. -/
theorem C8_counterexample :
    TwoStageFallbackPolicy.load (some (⟨none, none, none⟩, ["pickle_protocol"])) =
      .error (.unexpected_keyword "pickle_protocol") := rfl

/-- C8 as amended: a record with some of the three fields missing loads
with the missing fields at the constructor defaults, while a record with
any key beyond the three fields makes load fail with the unexpected-keyword
error of the keyword expansion. -/
theorem C8_load_semantics (meta : PersistedMeta) (extra : List String) :
    (extra = [] →
      TwoStageFallbackPolicy.load (some (meta, extra)) =
        .ok ⟨meta.nlu_threshold.getD default_threshold,
             meta.core_threshold.getD default_threshold,
             meta.fallback_action_name.getD ACTION_DEFAULT_FALLBACK_NAME⟩) ∧
    (∀ k rest, extra = k :: rest →
      TwoStageFallbackPolicy.load (some (meta, extra)) =
        .error (.unexpected_keyword k)) := by
  constructor
  · intro hEmpty
    subst hEmpty
    rfl
  · intro k rest hCons
    subst hCons
    rfl

/-- Witness for C8 as amended: a record holding only the nlu threshold. -/
theorem C8_witness :
    TwoStageFallbackPolicy.load (some (⟨some half, none, none⟩, [])) =
      .ok ⟨half, default_threshold, ACTION_DEFAULT_FALLBACK_NAME⟩ :=
  (C8_load_semantics ⟨some half, none, none⟩ []).1 rfl

/-- C2 counterexample: a tracker whose raw latest executed action is still
the ask-confirmation prompt satisfies the guards of rules 2 and 6 — the last
system action is the confirmation prompt, the last intent is deny, and
should_fallback holds — yet predict returns the listen recommendation of the
awaiting-input rule, not the rule-2 result. -/
theorem C2_counterexample :
    (Tracker.mk [ACTION_DEFAULT_ASK_CONFIRMATION] (some USER_INTENT_DENY)
        (some low_conf)).last_executed_has ACTION_DEFAULT_ASK_CONFIRMATION 0 = true ∧
    (Tracker.mk [ACTION_DEFAULT_ASK_CONFIRMATION] (some USER_INTENT_DENY)
        (some low_conf)).intent_name = some USER_INTENT_DENY ∧
    default_two_stage_policy.should_fallback
        ((Tracker.mk [ACTION_DEFAULT_ASK_CONFIRMATION] (some USER_INTENT_DENY)
            (some low_conf)).intent_confidence.getD 1)
        (Tracker.mk [ACTION_DEFAULT_ASK_CONFIRMATION] (some USER_INTENT_DENY)
            (some low_conf)).latest_action_name = true ∧
    default_two_stage_policy.predict_action_probabilities
        (Tracker.mk [ACTION_DEFAULT_ASK_CONFIRMATION] (some USER_INTENT_DENY)
            (some low_conf)) full_domain =
      confidence_scores_for ACTION_LISTEN_NAME FALLBACK_SCORE full_domain ∧
    confidence_scores_for ACTION_LISTEN_NAME FALLBACK_SCORE full_domain ≠
      default_two_stage_policy.results_for_user_denied
        (Tracker.mk [ACTION_DEFAULT_ASK_CONFIRMATION] (some USER_INTENT_DENY)
            (some low_conf)) full_domain := by
  decide

/-- C2 as amended: when additionally the policy is not awaiting user input
(the raw latest executed action is none of the two prompts and the fallback
action, as after a listen), a tracker satisfying the guards of rules 2 and 6
gets the rule-2 denial result, never the rule-6 ask-confirmation
recommendation; rule 2 wins by evaluation order. -/
theorem C2_rule2_beats_rule6
    (p : TwoStageFallbackPolicy) (t : Tracker) (d : Domain)
    (hc : USER_INTENT_CONFIRM ∈ d.intents) (hd : USER_INTENT_DENY ∈ d.intents)
    (hwait : p.is_user_input_expected t = false)
    (hprompt : t.last_executed_has ACTION_DEFAULT_ASK_CONFIRMATION 0 = true)
    (hintent : t.intent_name = some USER_INTENT_DENY)
    (hsf : p.should_fallback (t.intent_confidence.getD 1)
        t.latest_action_name = true)
    (hfb : p.fallback_action_name ≠ ACTION_DEFAULT_ASK_CONFIRMATION) :
    p.predict_action_probabilities t d = p.results_for_user_denied t d ∧
      p.predict_action_probabilities t d ≠
        confidence_scores_for ACTION_DEFAULT_ASK_CONFIRMATION FALLBACK_SCORE d := by
  have hden : _has_user_denied t.intent_name t = true := by
    unfold _has_user_denied
    rw [hprompt, hintent]
    decide
  have hmain : p.predict_action_probabilities t d = p.results_for_user_denied t d := by
    unfold TwoStageFallbackPolicy.predict_action_probabilities
    rw [if_neg (domain_ok hc hd), if_neg (ne_true_of_false hwait), if_pos hden]
  refine ⟨hmain, ?_⟩
  rw [hmain]
  unfold TwoStageFallbackPolicy.results_for_user_denied
  split
  · exact confidence_scores_for_ne d hfb
  · exact confidence_scores_for_ne d (by decide)

/-- Witness for C2 as amended at a concrete post-listen denial tracker. -/
theorem C2_witness :
    default_two_stage_policy.predict_action_probabilities
        (Tracker.mk [ACTION_LISTEN_NAME, ACTION_DEFAULT_ASK_CONFIRMATION]
            (some USER_INTENT_DENY) (some low_conf)) full_domain =
      default_two_stage_policy.results_for_user_denied
        (Tracker.mk [ACTION_LISTEN_NAME, ACTION_DEFAULT_ASK_CONFIRMATION]
            (some USER_INTENT_DENY) (some low_conf)) full_domain ∧
    default_two_stage_policy.predict_action_probabilities
        (Tracker.mk [ACTION_LISTEN_NAME, ACTION_DEFAULT_ASK_CONFIRMATION]
            (some USER_INTENT_DENY) (some low_conf)) full_domain ≠
      confidence_scores_for ACTION_DEFAULT_ASK_CONFIRMATION FALLBACK_SCORE
        full_domain :=
  C2_rule2_beats_rule6 default_two_stage_policy
    (Tracker.mk [ACTION_LISTEN_NAME, ACTION_DEFAULT_ASK_CONFIRMATION]
        (some USER_INTENT_DENY) (some low_conf)) full_domain
    (by decide) (by decide) (by decide) (by decide) (by decide) (by decide)
    (by decide)

/-- C3 counterexample: with the confirmation prompt as the raw latest
executed action and the last intent deny, the skip-1 position does not hold
the clarification prompt, yet predict returns the listen recommendation of
the awaiting-input rule instead of the ask-clarification result the claim
requires. -/
theorem C3_counterexample :
    (Tracker.mk [ACTION_DEFAULT_ASK_CONFIRMATION] (some USER_INTENT_DENY)
        none).last_executed_has ACTION_DEFAULT_ASK_CONFIRMATION 0 = true ∧
    (Tracker.mk [ACTION_DEFAULT_ASK_CONFIRMATION] (some USER_INTENT_DENY)
        none).intent_name = some USER_INTENT_DENY ∧
    (Tracker.mk [ACTION_DEFAULT_ASK_CONFIRMATION] (some USER_INTENT_DENY)
        none).last_executed_has ACTION_DEFAULT_ASK_CLARIFICATION 1 = false ∧
    default_two_stage_policy.predict_action_probabilities
        (Tracker.mk [ACTION_DEFAULT_ASK_CONFIRMATION] (some USER_INTENT_DENY)
            none) full_domain =
      confidence_scores_for ACTION_LISTEN_NAME FALLBACK_SCORE full_domain ∧
    confidence_scores_for ACTION_LISTEN_NAME FALLBACK_SCORE full_domain ≠
      confidence_scores_for ACTION_DEFAULT_ASK_CLARIFICATION FALLBACK_SCORE
        full_domain := by
  decide

/-- C3 as amended: when additionally the policy is not awaiting user input,
a denial after the confirmation prompt yields the configured fallback action
at FALLBACK_SCORE when the system action at skip 1 was the clarification
prompt, and the ask-clarification action at FALLBACK_SCORE otherwise. -/
theorem C3_denial_escalation
    (p : TwoStageFallbackPolicy) (t : Tracker) (d : Domain)
    (hc : USER_INTENT_CONFIRM ∈ d.intents) (hd : USER_INTENT_DENY ∈ d.intents)
    (hwait : p.is_user_input_expected t = false)
    (hprompt : t.last_executed_has ACTION_DEFAULT_ASK_CONFIRMATION 0 = true)
    (hintent : t.intent_name = some USER_INTENT_DENY) :
    (t.last_executed_has ACTION_DEFAULT_ASK_CLARIFICATION 1 = true →
      p.predict_action_probabilities t d =
        confidence_scores_for p.fallback_action_name FALLBACK_SCORE d) ∧
    (t.last_executed_has ACTION_DEFAULT_ASK_CLARIFICATION 1 = false →
      p.predict_action_probabilities t d =
        confidence_scores_for ACTION_DEFAULT_ASK_CLARIFICATION FALLBACK_SCORE d) := by
  have hden : _has_user_denied t.intent_name t = true := by
    unfold _has_user_denied
    rw [hprompt, hintent]
    decide
  have hmain : p.predict_action_probabilities t d = p.results_for_user_denied t d := by
    unfold TwoStageFallbackPolicy.predict_action_probabilities
    rw [if_neg (domain_ok hc hd), if_neg (ne_true_of_false hwait), if_pos hden]
  constructor
  · intro hskip
    rw [hmain]
    unfold TwoStageFallbackPolicy.results_for_user_denied
    rw [if_pos hskip]
  · intro hskip
    rw [hmain]
    unfold TwoStageFallbackPolicy.results_for_user_denied
    rw [if_neg (ne_true_of_false hskip)]

/-- Witness for C3 as amended: a second denial after a clarification round
reaches the ultimate fallback. -/
theorem C3_witness :
    default_two_stage_policy.predict_action_probabilities
        (Tracker.mk [ACTION_LISTEN_NAME, ACTION_DEFAULT_ASK_CONFIRMATION,
            ACTION_LISTEN_NAME, ACTION_DEFAULT_ASK_CLARIFICATION]
            (some USER_INTENT_DENY) (some low_conf)) full_domain =
      confidence_scores_for default_two_stage_policy.fallback_action_name
        FALLBACK_SCORE full_domain :=
  (C3_denial_escalation default_two_stage_policy
      (Tracker.mk [ACTION_LISTEN_NAME, ACTION_DEFAULT_ASK_CONFIRMATION,
          ACTION_LISTEN_NAME, ACTION_DEFAULT_ASK_CLARIFICATION]
          (some USER_INTENT_DENY) (some low_conf)) full_domain
      (by decide) (by decide) (by decide) (by decide) (by decide)).1 (by decide)

/-- C4 counterexample: with the clarification prompt as the raw latest
executed action, user_clarified holds and should_fallback is false, yet
predict returns the listen recommendation of the awaiting-input rule, not
the revert-fallback-escalation result the claim requires. -/
theorem C4_counterexample :
    has_user_clarified
        (Tracker.mk [ACTION_DEFAULT_ASK_CLARIFICATION] none none) = true ∧
    default_two_stage_policy.should_fallback
        ((Tracker.mk [ACTION_DEFAULT_ASK_CLARIFICATION] none
            none).intent_confidence.getD 1)
        (Tracker.mk [ACTION_DEFAULT_ASK_CLARIFICATION] none
            none).latest_action_name = false ∧
    default_two_stage_policy.predict_action_probabilities
        (Tracker.mk [ACTION_DEFAULT_ASK_CLARIFICATION] none none) full_domain =
      confidence_scores_for ACTION_LISTEN_NAME FALLBACK_SCORE full_domain ∧
    confidence_scores_for ACTION_LISTEN_NAME FALLBACK_SCORE full_domain ≠
      confidence_scores_for ACTION_REVERT_FALLBACK_EVENTS FALLBACK_SCORE
        full_domain := by
  decide

/-- C4 as amended: when additionally the policy is not awaiting user input,
a tracker whose last system action is the clarification prompt yields the
ask-confirmation action at FALLBACK_SCORE when should_fallback holds, the
revert-fallback-escalation action at FALLBACK_SCORE when it does not, and in
neither case the ask-clarification action again. -/
theorem C4_clarified_outcomes
    (p : TwoStageFallbackPolicy) (t : Tracker) (d : Domain)
    (hc : USER_INTENT_CONFIRM ∈ d.intents) (hd : USER_INTENT_DENY ∈ d.intents)
    (hwait : p.is_user_input_expected t = false)
    (hclar : has_user_clarified t = true) :
    (p.should_fallback (t.intent_confidence.getD 1) t.latest_action_name = true →
      p.predict_action_probabilities t d =
        confidence_scores_for ACTION_DEFAULT_ASK_CONFIRMATION FALLBACK_SCORE d) ∧
    (p.should_fallback (t.intent_confidence.getD 1) t.latest_action_name = false →
      p.predict_action_probabilities t d =
        confidence_scores_for ACTION_REVERT_FALLBACK_EVENTS FALLBACK_SCORE d) ∧
    p.predict_action_probabilities t d ≠
      confidence_scores_for ACTION_DEFAULT_ASK_CLARIFICATION FALLBACK_SCORE d := by
  have hclar2 : t.last_executed_has ACTION_DEFAULT_ASK_CLARIFICATION 0 = true := hclar
  have hconf0 : t.last_executed_has ACTION_DEFAULT_ASK_CONFIRMATION 0 = false :=
    last_executed_has_ne ACTION_DEFAULT_ASK_CONFIRMATION 0 hclar2 (by decide)
  have hden : _has_user_denied t.intent_name t = false := by
    unfold _has_user_denied
    rw [hconf0, Bool.false_and]
  have hcfm : has_user_confirmed t.intent_name t = false := by
    unfold has_user_confirmed
    rw [hconf0, Bool.false_and]
  have hTrue : p.should_fallback (t.intent_confidence.getD 1)
      t.latest_action_name = true →
      p.predict_action_probabilities t d =
        confidence_scores_for ACTION_DEFAULT_ASK_CONFIRMATION FALLBACK_SCORE d := by
    intro hsf
    unfold TwoStageFallbackPolicy.predict_action_probabilities
    rw [if_neg (domain_ok hc hd), if_neg (ne_true_of_false hwait),
        if_neg (ne_true_of_false hden), if_pos (by rw [hclar, hsf]; rfl)]
  have hFalse : p.should_fallback (t.intent_confidence.getD 1)
      t.latest_action_name = false →
      p.predict_action_probabilities t d =
        confidence_scores_for ACTION_REVERT_FALLBACK_EVENTS FALLBACK_SCORE d := by
    intro hsf
    unfold TwoStageFallbackPolicy.predict_action_probabilities
    rw [if_neg (domain_ok hc hd), if_neg (ne_true_of_false hwait),
        if_neg (ne_true_of_false hden),
        if_neg (ne_true_of_false (by rw [hsf, Bool.and_false])),
        if_pos (by rw [hcfm, hclar]; rfl)]
  refine ⟨hTrue, hFalse, ?_⟩
  cases hsf : p.should_fallback (t.intent_confidence.getD 1) t.latest_action_name with
  | false =>
      rw [hFalse hsf]
      exact confidence_scores_for_ne d (by decide)
  | true =>
      rw [hTrue hsf]
      exact confidence_scores_for_ne d (by decide)

/-- Witness for C4 as amended: a still-low-confidence clarification after a
listen leads to the confirmation prompt. -/
theorem C4_witness :
    default_two_stage_policy.predict_action_probabilities
        (Tracker.mk [ACTION_LISTEN_NAME, ACTION_DEFAULT_ASK_CLARIFICATION]
            (some "greet") (some low_conf)) full_domain =
      confidence_scores_for ACTION_DEFAULT_ASK_CONFIRMATION FALLBACK_SCORE
        full_domain :=
  (C4_clarified_outcomes default_two_stage_policy
      (Tracker.mk [ACTION_LISTEN_NAME, ACTION_DEFAULT_ASK_CLARIFICATION]
          (some "greet") (some low_conf)) full_domain
      (by decide) (by decide) (by decide) (by decide)).1 (by decide)

/-- C5 counterexample: with the confirmation prompt as the raw latest
executed action, a confirm intent with low confidence satisfies the guards of
the claim, yet predict returns the listen recommendation of the
awaiting-input rule, not the revert-fallback-escalation result. -/
theorem C5_counterexample :
    (Tracker.mk [ACTION_DEFAULT_ASK_CONFIRMATION] (some USER_INTENT_CONFIRM)
        (some low_conf)).last_executed_has ACTION_DEFAULT_ASK_CONFIRMATION 0 = true ∧
    (Tracker.mk [ACTION_DEFAULT_ASK_CONFIRMATION] (some USER_INTENT_CONFIRM)
        (some low_conf)).intent_name = some USER_INTENT_CONFIRM ∧
    default_two_stage_policy.should_fallback
        ((Tracker.mk [ACTION_DEFAULT_ASK_CONFIRMATION] (some USER_INTENT_CONFIRM)
            (some low_conf)).intent_confidence.getD 1)
        (Tracker.mk [ACTION_DEFAULT_ASK_CONFIRMATION] (some USER_INTENT_CONFIRM)
            (some low_conf)).latest_action_name = true ∧
    default_two_stage_policy.predict_action_probabilities
        (Tracker.mk [ACTION_DEFAULT_ASK_CONFIRMATION] (some USER_INTENT_CONFIRM)
            (some low_conf)) full_domain =
      confidence_scores_for ACTION_LISTEN_NAME FALLBACK_SCORE full_domain ∧
    confidence_scores_for ACTION_LISTEN_NAME FALLBACK_SCORE full_domain ≠
      confidence_scores_for ACTION_REVERT_FALLBACK_EVENTS FALLBACK_SCORE
        full_domain := by
  decide

/-- C5 as amended: when additionally the policy is not awaiting user input,
a confirm intent after the confirmation prompt yields the
revert-fallback-escalation action at FALLBACK_SCORE, whatever the
should_fallback verdict on the confirm utterance is. -/
theorem C5_confirm_trusted
    (p : TwoStageFallbackPolicy) (t : Tracker) (d : Domain)
    (hc : USER_INTENT_CONFIRM ∈ d.intents) (hd : USER_INTENT_DENY ∈ d.intents)
    (hwait : p.is_user_input_expected t = false)
    (hprompt : t.last_executed_has ACTION_DEFAULT_ASK_CONFIRMATION 0 = true)
    (hintent : t.intent_name = some USER_INTENT_CONFIRM) :
    p.predict_action_probabilities t d =
      confidence_scores_for ACTION_REVERT_FALLBACK_EVENTS FALLBACK_SCORE d := by
  have hden : _has_user_denied t.intent_name t = false := by
    unfold _has_user_denied
    rw [hintent,
        (by decide : ((some USER_INTENT_CONFIRM == some USER_INTENT_DENY) : Bool) = false),
        Bool.and_false]
  have hclar : has_user_clarified t = false :=
    last_executed_has_ne ACTION_DEFAULT_ASK_CLARIFICATION 0 hprompt (by decide)
  have hcfm : has_user_confirmed t.intent_name t = true := by
    unfold has_user_confirmed
    rw [hprompt, hintent]
    decide
  unfold TwoStageFallbackPolicy.predict_action_probabilities
  rw [if_neg (domain_ok hc hd), if_neg (ne_true_of_false hwait),
      if_neg (ne_true_of_false hden),
      if_neg (ne_true_of_false (by rw [hclar, Bool.false_and])),
      if_pos (by rw [hcfm, Bool.true_or])]

/-- Witness for C5 as amended: the confirm reply is trusted although its own
confidence 0.1 is below the 0.3 threshold, so should_fallback holds. -/
theorem C5_witness :
    default_two_stage_policy.predict_action_probabilities
        (Tracker.mk [ACTION_LISTEN_NAME, ACTION_DEFAULT_ASK_CONFIRMATION]
            (some USER_INTENT_CONFIRM) (some low_conf)) full_domain =
      confidence_scores_for ACTION_REVERT_FALLBACK_EVENTS FALLBACK_SCORE
        full_domain ∧
    default_two_stage_policy.should_fallback
        ((Tracker.mk [ACTION_LISTEN_NAME, ACTION_DEFAULT_ASK_CONFIRMATION]
            (some USER_INTENT_CONFIRM) (some low_conf)).intent_confidence.getD 1)
        (Tracker.mk [ACTION_LISTEN_NAME, ACTION_DEFAULT_ASK_CONFIRMATION]
            (some USER_INTENT_CONFIRM) (some low_conf)).latest_action_name = true :=
  ⟨C5_confirm_trusted default_two_stage_policy
      (Tracker.mk [ACTION_LISTEN_NAME, ACTION_DEFAULT_ASK_CONFIRMATION]
          (some USER_INTENT_CONFIRM) (some low_conf)) full_domain
      (by decide) (by decide) (by decide) (by decide) (by decide),
   by decide⟩

/-- C6: a call on an empty history, under the domain precondition and with
the nlu threshold in the conventional range bounded by 1, raises no error:
every last-action query is false, the latest action is absent, and the call
falls through to rule 7, the baseline fallback score vector at the core
threshold. -/
theorem C6_empty_history_rule7
    (p : TwoStageFallbackPolicy) (d : Domain)
    (hc : USER_INTENT_CONFIRM ∈ d.intents) (hd : USER_INTENT_DENY ∈ d.intents)
    (hthr : p.nlu_threshold ≤ 1) :
    (∀ name skip, Tracker.last_executed_has ⟨[], none, none⟩ name skip = false) ∧
    Tracker.latest_action_name ⟨[], none, none⟩ = none ∧
    p.predict_action_probabilities ⟨[], none, none⟩ d =
      .ok (p.fallback_scores d p.core_threshold) := by
  have hsf : p.should_fallback
      ((Tracker.mk [] none none).intent_confidence.getD 1)
      (Tracker.mk [] none none).latest_action_name = false := by
    unfold TwoStageFallbackPolicy.should_fallback
    have hlt : ¬ ((Tracker.mk [] none none).intent_confidence.getD 1 <
        p.nlu_threshold) := not_lt.mpr hthr
    rw [decide_eq_false hlt, Bool.false_and]
  refine ⟨?_, rfl, ?_⟩
  · intro name skip
    unfold Tracker.last_executed_has Tracker.system_actions
    cases skip with
    | zero => rfl
    | succ n => rfl
  · have h1 : p.is_user_input_expected (Tracker.mk [] none none) = false := rfl
    have h2 : _has_user_denied (Tracker.mk [] none none).intent_name
        (Tracker.mk [] none none) = false := rfl
    have h3 : (has_user_clarified (Tracker.mk [] none none) &&
        p.should_fallback ((Tracker.mk [] none none).intent_confidence.getD 1)
          (Tracker.mk [] none none).latest_action_name) = false := rfl
    have h4 : (has_user_confirmed (Tracker.mk [] none none).intent_name
          (Tracker.mk [] none none) ||
        has_user_clarified (Tracker.mk [] none none)) = false := rfl
    have h5 : (Tracker.mk [] none none).last_executed_has
        ACTION_DEFAULT_ASK_CONFIRMATION 0 = false := rfl
    unfold TwoStageFallbackPolicy.predict_action_probabilities
    rw [if_neg (domain_ok hc hd), if_neg (ne_true_of_false h1),
        if_neg (ne_true_of_false h2), if_neg (ne_true_of_false h3),
        if_neg (ne_true_of_false h4), if_neg (ne_true_of_false h5),
        if_neg (ne_true_of_false hsf)]

/-- Witness for C6 at the default configuration and the full domain. -/
theorem C6_witness :
    default_two_stage_policy.predict_action_probabilities ⟨[], none, none⟩
        full_domain =
      .ok (default_two_stage_policy.fallback_scores full_domain
        default_two_stage_policy.core_threshold) :=
  (C6_empty_history_rule7 default_two_stage_policy full_domain (by decide)
    (by decide) (by decide)).2.2

/-- C10 counterexample: a nameless intent arriving while the raw latest
executed action is still the confirmation prompt is answered by the
awaiting-input rule with the listen recommendation, not by rule 5 with the
ultimate fallback that the claim requires for a true should_fallback. -/
theorem C10_counterexample :
    (Tracker.mk [ACTION_DEFAULT_ASK_CONFIRMATION] none
        (some low_conf)).intent_name = none ∧
    (Tracker.mk [ACTION_DEFAULT_ASK_CONFIRMATION] none
        (some low_conf)).last_executed_has ACTION_DEFAULT_ASK_CONFIRMATION 0 = true ∧
    default_two_stage_policy.should_fallback
        ((Tracker.mk [ACTION_DEFAULT_ASK_CONFIRMATION] none
            (some low_conf)).intent_confidence.getD 1)
        (Tracker.mk [ACTION_DEFAULT_ASK_CONFIRMATION] none
            (some low_conf)).latest_action_name = true ∧
    default_two_stage_policy.predict_action_probabilities
        (Tracker.mk [ACTION_DEFAULT_ASK_CONFIRMATION] none (some low_conf))
        full_domain =
      confidence_scores_for ACTION_LISTEN_NAME FALLBACK_SCORE full_domain ∧
    confidence_scores_for ACTION_LISTEN_NAME FALLBACK_SCORE full_domain ≠
      confidence_scores_for default_two_stage_policy.fallback_action_name
        FALLBACK_SCORE full_domain := by
  decide

/-- C10 as amended: a nameless last intent equals neither reserved intent, so
the denial rule and the confirm conjunct never fire; when additionally the
policy is not awaiting user input, a nameless reply after the confirmation
prompt is decided by rule 5 — the revert-fallback-escalation action when
should_fallback is false, the configured fallback action when it is true. -/
theorem C10_nameless_intent_rule5
    (p : TwoStageFallbackPolicy) (t : Tracker) (d : Domain)
    (hc : USER_INTENT_CONFIRM ∈ d.intents) (hd : USER_INTENT_DENY ∈ d.intents)
    (hwait : p.is_user_input_expected t = false)
    (hname : t.intent_name = none)
    (hprompt : t.last_executed_has ACTION_DEFAULT_ASK_CONFIRMATION 0 = true) :
    _has_user_denied t.intent_name t = false ∧
    has_user_confirmed t.intent_name t = false ∧
    (p.should_fallback (t.intent_confidence.getD 1) t.latest_action_name = false →
      p.predict_action_probabilities t d =
        confidence_scores_for ACTION_REVERT_FALLBACK_EVENTS FALLBACK_SCORE d) ∧
    (p.should_fallback (t.intent_confidence.getD 1) t.latest_action_name = true →
      p.predict_action_probabilities t d =
        confidence_scores_for p.fallback_action_name FALLBACK_SCORE d) := by
  have hden : _has_user_denied t.intent_name t = false := by
    unfold _has_user_denied
    rw [hname,
        (by decide : (((none : Option String) == some USER_INTENT_DENY) : Bool) = false),
        Bool.and_false]
  have hcfm : has_user_confirmed t.intent_name t = false := by
    unfold has_user_confirmed
    rw [hname,
        (by decide : (((none : Option String) == some USER_INTENT_CONFIRM) : Bool) = false),
        Bool.and_false]
  have hclar : has_user_clarified t = false :=
    last_executed_has_ne ACTION_DEFAULT_ASK_CLARIFICATION 0 hprompt (by decide)
  refine ⟨hden, hcfm, ?_, ?_⟩
  · intro hsf
    unfold TwoStageFallbackPolicy.predict_action_probabilities
    rw [if_neg (domain_ok hc hd), if_neg (ne_true_of_false hwait),
        if_neg (ne_true_of_false hden),
        if_neg (ne_true_of_false (by rw [hclar, Bool.false_and])),
        if_neg (ne_true_of_false (by rw [hcfm, hclar, Bool.or_false])),
        if_pos hprompt, hsf]
    rfl
  · intro hsf
    unfold TwoStageFallbackPolicy.predict_action_probabilities
    rw [if_neg (domain_ok hc hd), if_neg (ne_true_of_false hwait),
        if_neg (ne_true_of_false hden),
        if_neg (ne_true_of_false (by rw [hclar, Bool.false_and])),
        if_neg (ne_true_of_false (by rw [hcfm, hclar, Bool.or_false])),
        if_pos hprompt, hsf]
    rfl

/-- Witness for C10 as amended: a confident nameless reply after the
confirmation prompt reverts the escalation. -/
theorem C10_witness :
    _has_user_denied
        (Tracker.mk [ACTION_LISTEN_NAME, ACTION_DEFAULT_ASK_CONFIRMATION] none
            (some high_conf)).intent_name
        (Tracker.mk [ACTION_LISTEN_NAME, ACTION_DEFAULT_ASK_CONFIRMATION] none
            (some high_conf)) = false ∧
    default_two_stage_policy.predict_action_probabilities
        (Tracker.mk [ACTION_LISTEN_NAME, ACTION_DEFAULT_ASK_CONFIRMATION] none
            (some high_conf)) full_domain =
      confidence_scores_for ACTION_REVERT_FALLBACK_EVENTS FALLBACK_SCORE
        full_domain :=
  ⟨(C10_nameless_intent_rule5 default_two_stage_policy
      (Tracker.mk [ACTION_LISTEN_NAME, ACTION_DEFAULT_ASK_CONFIRMATION] none
          (some high_conf)) full_domain
      (by decide) (by decide) (by decide) (by decide) (by decide)).1,
   (C10_nameless_intent_rule5 default_two_stage_policy
      (Tracker.mk [ACTION_LISTEN_NAME, ACTION_DEFAULT_ASK_CONFIRMATION] none
          (some high_conf)) full_domain
      (by decide) (by decide) (by decide) (by decide) (by decide)).2.2.1
     (by decide)⟩

end Rasa
